import Mathlib

/-!
Verification of the production-monitor Telegram bot (src/telegram_bot.py)
against its natural-language specification.

The Python source is shallowly embedded: pure text manipulation becomes
functions on `String`/`List Char`; the mutable 2FA fields of
`ProductionMonitor` become a `MonitorState` record; the asynchronous page
environment (which selectors appear, when the 2FA code is delivered) becomes
an explicit environment record, and each stateful routine becomes a function
from that environment to its result together with a trace of its externally
visible steps.
-/

/- ## String primitives used by the Python source -/

/-- `needle.isPrefixOf`-based substring test: models Python's
`needle in haystack` on strings (used as `'plan-dashboard' in self.page.url`). -/
def listHasInfix (needle : List Char) : List Char → Bool
  | [] => needle.isEmpty
  | c :: rest => List.isPrefixOf needle (c :: rest) || listHasInfix needle rest

/-- Python `needle in haystack` for strings. -/
def strContains (haystack needle : String) : Bool :=
  listHasInfix needle.toList haystack.toList

/-- Python `str.isspace` on one character (the characters `str.strip()`
removes): ASCII whitespace, the separator controls 0x1C-0x1F, and the
Unicode line/paragraph/space separators. -/
def pyIsSpaceChar (c : Char) : Bool :=
  decide ((0x09 ≤ c.toNat ∧ c.toNat ≤ 0x0D) ∨ c.toNat = 0x20
    ∨ (0x1C ≤ c.toNat ∧ c.toNat ≤ 0x1F) ∨ c.toNat = 0x85 ∨ c.toNat = 0xA0
    ∨ c.toNat = 0x1680 ∨ (0x2000 ≤ c.toNat ∧ c.toNat ≤ 0x200A)
    ∨ c.toNat = 0x2028 ∨ c.toNat = 0x2029 ∨ c.toNat = 0x202F
    ∨ c.toNat = 0x205F ∨ c.toNat = 0x3000)

/-- Python `str.strip()`: drop whitespace (in Python's `str.isspace` sense)
from both ends. -/
def pyStrip (s : String) : String :=
  String.mk (((s.toList.dropWhile pyIsSpaceChar).reverse.dropWhile
    pyIsSpaceChar).reverse)

/-- Python `str.strip(chars)`: drop characters of `cs` from both ends
(used as `items_left_text.strip('()')`). -/
def pyStripChars (cs : List Char) (s : String) : String :=
  String.mk (((s.toList.dropWhile (cs.contains ·)).reverse.dropWhile
    (cs.contains ·)).reverse)

/-- Body of a Python integer literal after the first digit: every character a
digit or an underscore, and every underscore followed by a digit (Python's
`int` accepts single underscores between digits). -/
def undDigits : List Char → Bool
  | [] => true
  | ['_'] => false
  | '_' :: c :: rest => c.isDigit && undDigits (c :: rest)
  | c :: rest => c.isDigit && undDigits rest

/-- Numeric value of a digit sequence, ignoring underscores. -/
def undVal (acc : Nat) : List Char → Nat
  | [] => acc
  | '_' :: rest => undVal acc rest
  | c :: rest => undVal (acc * 10 + (c.toNat - 48)) rest

/-- The digit part of Python `int()`: nonempty, leading digit, then digits
with optional single underscores between them. -/
def pyIntDigits : List Char → Option Nat
  | [] => none
  | c :: rest =>
      if c.isDigit && undDigits (c :: rest) then some (undVal 0 (c :: rest))
      else none

/-- Model of Python `int(s)` on a decimal string: surrounding whitespace is
ignored, an optional sign precedes the digits; `none` models the raised
`ValueError`. Digits are read at ASCII level here (Python's `int` also
parses non-ASCII Unicode decimal digits; no theorem below evaluates it on
such input). -/
def pyInt (s : String) : Option Int :=
  match (pyStrip s).toList with
  | '+' :: rest => (pyIntDigits rest).map (fun n => (n : Int))
  | '-' :: rest => (pyIntDigits rest).map (fun n => -(n : Int))
  | l => (pyIntDigits l).map (fun n => (n : Int))

/- ## The 2FA message handler (telegram_bot.py lines 470-485) -/

/-- The two mutable 2FA fields of `ProductionMonitor`. -/
structure MonitorState where
  waiting_for_2fa : Bool
  two_fa_code : Option String
deriving Repr, DecidableEq

/-- One incoming plain-text Telegram message. -/
structure Msg where
  userId : Int
  text : String
deriving Repr, DecidableEq

/-- The reply `handle_message` sends, when it sends one. -/
inductive Reply where
  | codeReceived
  | badFormat
deriving Repr, DecidableEq

/-- Python `str.isdigit` on one character: true for characters of Unicode
Numeric_Type Decimal or Digit, a strict superset of the ASCII digits. The
full Unicode tables are large; listed here are the ASCII digits together
with the superscript/subscript digits and the Arabic-Indic, Extended
Arabic-Indic, Devanagari and fullwidth decimal digits (Python accepts
further ranges of the same two Unicode classes, which no theorem below
inspects). -/
def pyIsDigitChar (c : Char) : Bool :=
  Char.isDigit c
    || decide (c.toNat = 0xB2 ∨ c.toNat = 0xB3 ∨ c.toNat = 0xB9
      ∨ (0x660 ≤ c.toNat ∧ c.toNat ≤ 0x669)
      ∨ (0x6F0 ≤ c.toNat ∧ c.toNat ≤ 0x6F9)
      ∨ (0x966 ≤ c.toNat ∧ c.toNat ≤ 0x96F)
      ∨ c.toNat = 0x2070 ∨ (0x2074 ≤ c.toNat ∧ c.toNat ≤ 0x2079)
      ∨ (0x2080 ≤ c.toNat ∧ c.toNat ≤ 0x2089)
      ∨ (0xFF10 ≤ c.toNat ∧ c.toNat ≤ 0xFF19))

/-- `code.isdigit() and 4 <= len(code) <= 8` from `handle_message`
(`str.isdigit` is Unicode-aware and false on `""`). -/
def isValidCode (code : String) : Bool :=
  (decide (code.toList.length ≠ 0) && code.toList.all pyIsDigitChar)
    && (decide (4 ≤ code.toList.length) && decide (code.toList.length ≤ 8))

/-- The spec's second-factor pattern, written from the spec's words
(`^[0-9]{4,8}$`): every character between `'0'` and `'9'`, length 4..8. -/
def matchesCodeRe (s : String) : Bool :=
  s.toList.all (fun c => decide ('0' ≤ c) && decide (c ≤ '9'))
    && (decide (4 ≤ s.toList.length) && decide (s.toList.length ≤ 8))

/-- `handle_message` (lines 470-485): state is the module-level
`active_monitor` slot; the result pairs the new slot with the reply sent.
An unauthorized sender returns at once; otherwise, when a monitor is active
and waiting for 2FA, the trimmed text is validated and either stored into
`two_fa_code` or rejected with a format complaint. -/
def handle_message (allowed : Int) (st : Option MonitorState) (m : Msg) :
    Option MonitorState × Option Reply :=
  if m.userId = allowed then
    match st with
    | some mon =>
        if mon.waiting_for_2fa then
          let code := pyStrip m.text
          if isValidCode code then
            (some { mon with two_fa_code := some code }, some Reply.codeReceived)
          else
            (some mon, some Reply.badFormat)
        else
          (some mon, none)
    | none => (none, none)
  else
    (st, none)

/- ## Sanity lemmas about the code pattern -/

theorem char_isDigit_iff_range (c : Char) :
    Char.isDigit c = (decide ('0' ≤ c) && decide (c ≤ '9')) := by
  rfl

/-- Every match of the spec's pattern `^[0-9]{4,8}$` passes the program's
check: the program's acceptance set contains the regex's. -/
theorem re_subset_isValidCode (s : String) :
    matchesCodeRe s = true → isValidCode s = true := by
  unfold matchesCodeRe isValidCode
  intro h
  simp only [Bool.and_eq_true, List.all_eq_true] at h
  obtain ⟨hall, h4, h8⟩ := h
  simp only [Bool.and_eq_true, List.all_eq_true]
  refine ⟨⟨?_, ?_⟩, h4, h8⟩
  · simp only [decide_eq_true_eq] at h4 ⊢
    omega
  · intro c hc
    have hr := hall c hc
    have hd : Char.isDigit c = true := by
      rw [char_isDigit_iff_range, hr.1, hr.2]
      rfl
    simp [pyIsDigitChar, hd]

/-- Counterexample to C3 as stated: the delivered text `"١٢٣٤"` — four
Arabic-Indic digits, accepted by Python's `str.isdigit` with length 4 — is
accepted into the code slot although it does not match `^[0-9]{4,8}$`; the
program's acceptance set is strictly larger than the regex's, so "accepts
exactly the strings matching `^[0-9]{4,8}$`" is false. -/
theorem c3_unicode_counterexample :
    handle_message 7 (some ⟨true, none⟩) ⟨7, "١٢٣٤"⟩
        = (some ⟨true, some "١٢٣٤"⟩, some Reply.codeReceived)
  ∧ matchesCodeRe "١٢٣٤" = false := by
  decide

/-- Claim C3 (amended): with a monitor waiting for a second factor and the
message sent by the allowed user, the code slot is filled if and only if the
trimmed text is all digits in Python's Unicode `str.isdigit` sense with
length between 4 and 8 inclusive — a strict superset of `^[0-9]{4,8}$`,
every match of which is accepted; on acceptance the trimmed code is stored
with a receipt, otherwise the pending request is left unchanged and a
format complaint is sent. -/
theorem c3_second_factor_validation_amended (allowed : Int)
    (mon : MonitorState) (text : String) (hw : mon.waiting_for_2fa = true) :
    (handle_message allowed (some mon) ⟨allowed, text⟩ =
      if isValidCode (pyStrip text) then
        (some ⟨mon.waiting_for_2fa, some (pyStrip text)⟩, some Reply.codeReceived)
      else
        (some mon, some Reply.badFormat))
  ∧ (matchesCodeRe (pyStrip text) = true → isValidCode (pyStrip text) = true) := by
  constructor
  · simp only [handle_message, hw, if_true]
  · exact re_subset_isValidCode (pyStrip text)

/-- Witness for C3 (amended): the spec's three rejected examples (`"12a34"`,
`"123"`, `"123456789"`) leave the request unchanged with a format
complaint, and a well-formed ASCII code is accepted into the slot. -/
theorem c3_second_factor_validation_amended_witness :
    handle_message 7 (some ⟨true, none⟩) ⟨7, "12a34"⟩
        = (some ⟨true, none⟩, some Reply.badFormat)
  ∧ handle_message 7 (some ⟨true, none⟩) ⟨7, "123"⟩
        = (some ⟨true, none⟩, some Reply.badFormat)
  ∧ handle_message 7 (some ⟨true, none⟩) ⟨7, "123456789"⟩
        = (some ⟨true, none⟩, some Reply.badFormat)
  ∧ handle_message 7 (some ⟨true, none⟩) ⟨7, "123456"⟩
        = (some ⟨true, some "123456"⟩, some Reply.codeReceived) := by
  refine ⟨?_, ?_, ?_, ?_⟩ <;>
    rw [(c3_second_factor_validation_amended 7 ⟨true, none⟩ _ rfl).1] <;> decide

/-- Claim C10: the `two_fa_code` slot is written (receipt reply) exactly when
the sender is the allowed user, a monitor is active and waiting for 2FA, and
the trimmed text passes the digit-and-length check; any other message leaves
the state unchanged, and an unauthorized or out-of-phase message gets no
reply at all. -/
theorem c10_noninterference (allowed : Int) (st : Option MonitorState) (m : Msg) :
    ((handle_message allowed st m).2 = some Reply.codeReceived ↔
        (m.userId = allowed ∧ ∃ mon, st = some mon ∧ mon.waiting_for_2fa = true
          ∧ isValidCode (pyStrip m.text) = true))
  ∧ ((handle_message allowed st m).2 = some Reply.codeReceived →
        (handle_message allowed st m).1 = some ⟨true, some (pyStrip m.text)⟩)
  ∧ ((handle_message allowed st m).2 ≠ some Reply.codeReceived →
        (handle_message allowed st m).1 = st)
  ∧ (m.userId ≠ allowed → handle_message allowed st m = (st, none))
  ∧ (∀ mon, st = some mon → mon.waiting_for_2fa = false →
        handle_message allowed st m = (st, none)) := by
  by_cases hu : m.userId = allowed
  · cases st with
    | none => simp [handle_message, hu]
    | some mon =>
        by_cases hw : mon.waiting_for_2fa = true
        · by_cases hv : isValidCode (pyStrip m.text) = true
          · simp [handle_message, hu, hw, hv]
          · simp [handle_message, hu, hw, hv]
        · simp [handle_message, hu, hw]
  · simp [handle_message, hu]

/- ## handle_login (telegram_bot.py lines 141-242) -/

/-- The externally visible steps of `handle_login`, in the order the function
performs them (each step also emits a Notifier message in the source). -/
inductive LoginStep where
  | gotoBase
  | alreadyLoggedIn
  | selectFoodLion
  | enterEmail
  | enterPassword
  | check2fa
  | request2fa
  | fillCode (c : String)
  | timeout2fa
  | saveSession
  | success
  | loginTimeout
deriving Repr, DecidableEq

/-- The page/network environment one call of `handle_login` runs against:
which selectors appear within their timeouts, what the URL is after the
initial `goto`, and when (in seconds after the 2FA prompt) the external
delivery event fills the `two_fa_code` slot. -/
structure LoginEnv where
  urlAfterGoto : String
  foodLionAppears : Bool
  emailAppears : Bool
  passwordAppears : Bool
  codeInputAppears : Bool
  deliveryTime : Option Nat
  deliveredCode : String
  dashboardArrives : Bool

/-- The `self.two_fa_code` slot as seen `t` seconds after the 2FA prompt:
filled with the delivered code from the delivery time on. -/
def slotAt (env : LoginEnv) (t : Nat) : Option String :=
  match env.deliveryTime with
  | none => none
  | some d => if d ≤ t then some env.deliveredCode else none

/-- The polling loop `for _ in range(60): if self.two_fa_code: break;
await asyncio.sleep(2)` followed by the final re-read: returns the elapsed
time at which the loop stops polling (`k` iterations remain, `t` seconds
have elapsed). -/
def waitForCode (env : LoginEnv) : Nat → Nat → Nat
  | 0, t => t
  | k + 1, t =>
      match slotAt env t with
      | some _ => t
      | none => waitForCode env k (t + 2)

/-- What `handle_login` returns: the boolean result, the trace of steps, and
the final values of `waiting_for_2fa` / `two_fa_code`. -/
structure LoginResult where
  ok : Bool
  trace : List LoginStep
  waiting_for_2fa : Bool
  two_fa_code : Option String
deriving Repr, DecidableEq

/-- The company-selection click, present only when the button appears within
its 5-second timeout (absence is swallowed). -/
def companyPart (env : LoginEnv) : List LoginStep :=
  if env.foodLionAppears then [LoginStep.selectFoodLion] else []

/-- Steps up to and including the 2FA probe when email and password were both
found. -/
def loginPre (env : LoginEnv) : List LoginStep :=
  LoginStep.gotoBase :: companyPart env
    ++ [LoginStep.enterEmail, LoginStep.enterPassword, LoginStep.check2fa]

/-- `ProductionMonitor.handle_login`: navigate to the base URL; short-circuit
when the URL already shows the dashboard; otherwise company selection (5s,
optional), email (10s, timeout fatal), password (10s, timeout fatal), 2FA
probe (5s, absence means no second factor); when 2FA is required, set
`waiting_for_2fa`, poll the slot every 2 seconds for at most 60 rounds, and
on timeout report failure (the flag is not touched on that path); on receipt
fill and submit the code and clear both fields; finally wait for the
dashboard URL, save the session and report success, a timeout anywhere being
reported as a login timeout. -/
def handle_login (env : LoginEnv) : LoginResult :=
  if strContains env.urlAfterGoto "plan-dashboard" then
    ⟨true, [LoginStep.gotoBase, LoginStep.alreadyLoggedIn], false, none⟩
  else if !env.emailAppears then
    ⟨false, LoginStep.gotoBase :: companyPart env ++ [LoginStep.loginTimeout],
      false, none⟩
  else if !env.passwordAppears then
    ⟨false, LoginStep.gotoBase :: companyPart env
      ++ [LoginStep.enterEmail, LoginStep.loginTimeout], false, none⟩
  else if env.codeInputAppears then
    match slotAt env (waitForCode env 60 0) with
    | none =>
        ⟨false, loginPre env ++ [LoginStep.request2fa, LoginStep.timeout2fa],
          true, none⟩
    | some c =>
        if env.dashboardArrives then
          ⟨true, loginPre env ++ [LoginStep.request2fa, LoginStep.fillCode c,
            LoginStep.saveSession, LoginStep.success], false, none⟩
        else
          ⟨false, loginPre env ++ [LoginStep.request2fa, LoginStep.fillCode c,
            LoginStep.loginTimeout], false, none⟩
  else if env.dashboardArrives then
    ⟨true, loginPre env ++ [LoginStep.saveSession, LoginStep.success],
      false, none⟩
  else
    ⟨false, loginPre env ++ [LoginStep.loginTimeout], false, none⟩

/- ## Poll-loop lemmas -/

theorem waitForCode_le (env : LoginEnv) :
    ∀ k t, waitForCode env k t ≤ t + 2 * k := by
  intro k
  induction k with
  | zero => intro t; simp [waitForCode]
  | succ n ih =>
      intro t
      cases h : slotAt env t with
      | some c => simp only [waitForCode, h]; omega
      | none =>
          have := ih (t + 2)
          simp only [waitForCode, h]
          omega

theorem waitForCode_even (env : LoginEnv) :
    ∀ k t, waitForCode env k t % 2 = t % 2 := by
  intro k
  induction k with
  | zero => intro t; simp [waitForCode]
  | succ n ih =>
      intro t
      cases h : slotAt env t with
      | some c => simp [waitForCode, h]
      | none =>
          have := ih (t + 2)
          simp only [waitForCode, h]
          omega

theorem slotAt_of_delivered (env : LoginEnv) (d : Nat)
    (hd : env.deliveryTime = some d) :
    ∀ k t, d ≤ t + 2 * k →
      slotAt env (waitForCode env k t) = some env.deliveredCode := by
  intro k
  induction k with
  | zero =>
      intro t ht
      simp only [waitForCode, slotAt, hd]
      have : d ≤ t := by omega
      simp [this]
  | succ n ih =>
      intro t ht
      cases h : slotAt env t with
      | some c =>
          simp only [waitForCode, h]
          by_cases hdt : d ≤ t
          · have hs : slotAt env t = some env.deliveredCode := by
              simp [slotAt, hd, hdt]
            rw [h] at hs
            exact hs
          · have hn : slotAt env t = none := by simp [slotAt, hd, hdt]
            rw [hn] at h
            exact absurd h (by simp)
      | none =>
          simp only [waitForCode, h]
          exact ih (t + 2) (by omega)

theorem slotAt_none_of_late (env : LoginEnv) (t : Nat)
    (h : env.deliveryTime = none ∨ ∃ d, env.deliveryTime = some d ∧ t < d) :
    slotAt env t = none := by
  rcases h with h | ⟨d, hd, hlt⟩
  · simp [slotAt, h]
  · simp [slotAt, hd]
    omega

theorem slot_after_wait_none (env : LoginEnv)
    (h : env.deliveryTime = none ∨ ∃ d, env.deliveryTime = some d ∧ 120 < d) :
    slotAt env (waitForCode env 60 0) = none := by
  apply slotAt_none_of_late
  rcases h with h | ⟨d, hd, hlt⟩
  · exact Or.inl h
  · refine Or.inr ⟨d, hd, ?_⟩
    have := waitForCode_le env 60 0
    omega

/-- Reduction of `handle_login` under the hypotheses that put it in the
`AwaitingCode` state: no session short-circuit, email and password inputs
found, and the verification-code input present. -/
theorem handle_login_2fa (env : LoginEnv)
    (h1 : strContains env.urlAfterGoto "plan-dashboard" = false)
    (h2 : env.emailAppears = true) (h3 : env.passwordAppears = true)
    (h4 : env.codeInputAppears = true) :
    handle_login env =
      match slotAt env (waitForCode env 60 0) with
      | none =>
          ⟨false, loginPre env ++ [LoginStep.request2fa, LoginStep.timeout2fa],
            true, none⟩
      | some c =>
          if env.dashboardArrives then
            ⟨true, loginPre env ++ [LoginStep.request2fa, LoginStep.fillCode c,
              LoginStep.saveSession, LoginStep.success], false, none⟩
          else
            ⟨false, loginPre env ++ [LoginStep.request2fa, LoginStep.fillCode c,
              LoginStep.loginTimeout], false, none⟩ := by
  simp [handle_login, h1, h2, h3, h4]

theorem timeout2fa_not_mem_loginPre (env : LoginEnv) :
    LoginStep.timeout2fa ∉ loginPre env := by
  unfold loginPre companyPart
  by_cases h : env.foodLionAppears <;> simp [h]

theorem fillCode_not_mem_loginPre (env : LoginEnv) (c : String) :
    LoginStep.fillCode c ∉ loginPre env := by
  unfold loginPre companyPart
  by_cases h : env.foodLionAppears <;> simp [h]

/-- Claim C4: in the `AwaitingCode` state the machine polls the code slot
every 2 seconds (all poll instants are even) for at most 120 seconds; if the
code is delivered within the 120-second ceiling the machine resumes and
fills/submits it, and if no code arrives within 120 seconds the login fails
with the 2FA-timeout message. -/
theorem c4_awaiting_code_polling (env : LoginEnv)
    (h1 : strContains env.urlAfterGoto "plan-dashboard" = false)
    (h2 : env.emailAppears = true) (h3 : env.passwordAppears = true)
    (h4 : env.codeInputAppears = true) :
    (waitForCode env 60 0 ≤ 120 ∧ waitForCode env 60 0 % 2 = 0)
  ∧ ((env.deliveryTime = none ∨ ∃ d, env.deliveryTime = some d ∧ 120 < d) →
      (handle_login env).ok = false
        ∧ LoginStep.timeout2fa ∈ (handle_login env).trace
        ∧ LoginStep.fillCode env.deliveredCode ∉ (handle_login env).trace)
  ∧ (∀ d, env.deliveryTime = some d → d ≤ 120 →
      LoginStep.fillCode env.deliveredCode ∈ (handle_login env).trace
        ∧ LoginStep.timeout2fa ∉ (handle_login env).trace) := by
  refine ⟨⟨?_, ?_⟩, ?_, ?_⟩
  · have := waitForCode_le env 60 0
    omega
  · have := waitForCode_even env 60 0
    omega
  · intro h
    have hs := slot_after_wait_none env h
    rw [handle_login_2fa env h1 h2 h3 h4, hs]
    refine ⟨rfl, by simp, ?_⟩
    intro hmem
    rcases List.mem_append.mp hmem with hm | hm
    · exact fillCode_not_mem_loginPre env _ hm
    · simp at hm
  · intro d hd hle
    have hs := slotAt_of_delivered env d hd 60 0 (by omega)
    rw [handle_login_2fa env h1 h2 h3 h4, hs]
    by_cases hdb : env.dashboardArrives = true
    · refine ⟨by simp [hdb], ?_⟩
      simp only [hdb, if_true]
      intro hmem
      rcases List.mem_append.mp hmem with hm | hm
      · exact timeout2fa_not_mem_loginPre env hm
      · simp at hm
    · have hdb' : env.dashboardArrives = false := by
        revert hdb; cases env.dashboardArrives <;> simp
      refine ⟨by simp [hdb'], ?_⟩
      simp only [hdb', if_false]
      intro hmem
      rcases List.mem_append.mp hmem with hm | hm
      · exact timeout2fa_not_mem_loginPre env hm
      · simp at hm

/-- Witness for C4: a code delivered 4 seconds after the prompt is filled and
submitted, and no 2FA timeout is reported. -/
theorem c4_awaiting_code_polling_witness :
    LoginStep.fillCode "123456" ∈ (handle_login
      ⟨"about:blank", false, true, true, true, some 4, "123456", true⟩).trace
  ∧ LoginStep.timeout2fa ∉ (handle_login
      ⟨"about:blank", false, true, true, true, some 4, "123456", true⟩).trace := by
  exact (c4_awaiting_code_polling
    ⟨"about:blank", false, true, true, true, some 4, "123456", true⟩
    rfl rfl rfl rfl).2.2 4 rfl (by omega)

/-- Counterexample to C5 as stated: with 2FA required and no code delivered,
`handle_login` times out, yet leaves `waiting_for_2fa = true` — the flag is
not cleared on the timeout path (the claim says both fields are consumed and
cleared when the machine times out). -/
theorem c5_counterexample :
    (handle_login ⟨"about:blank", false, true, true, true, none, "", true⟩).ok
        = false
  ∧ (handle_login
      ⟨"about:blank", false, true, true, true, none, "", true⟩).waiting_for_2fa
        = true := by
  exact ⟨rfl, rfl⟩

/-- Claim C5 (amended): while authentication awaits a code the request lives
in `waiting_for_2fa`/`two_fa_code`; when the machine resumes with a
delivered code both fields are consumed and cleared, and when it times out
without one the code slot is empty but `waiting_for_2fa` is left set. -/
theorem c5_request_cleared_on_resume (env : LoginEnv)
    (h1 : strContains env.urlAfterGoto "plan-dashboard" = false)
    (h2 : env.emailAppears = true) (h3 : env.passwordAppears = true)
    (h4 : env.codeInputAppears = true) :
    (∀ d, env.deliveryTime = some d → d ≤ 120 →
        (handle_login env).waiting_for_2fa = false
          ∧ (handle_login env).two_fa_code = none)
  ∧ ((env.deliveryTime = none ∨ ∃ d, env.deliveryTime = some d ∧ 120 < d) →
        (handle_login env).waiting_for_2fa = true
          ∧ (handle_login env).two_fa_code = none
          ∧ (handle_login env).ok = false) := by
  constructor
  · intro d hd hle
    have hs := slotAt_of_delivered env d hd 60 0 (by omega)
    rw [handle_login_2fa env h1 h2 h3 h4, hs]
    by_cases hdb : env.dashboardArrives = true
    · simp [hdb]
    · have hdb' : env.dashboardArrives = false := by
        revert hdb; cases env.dashboardArrives <;> simp
      simp [hdb']
  · intro h
    have hs := slot_after_wait_none env h
    rw [handle_login_2fa env h1 h2 h3 h4, hs]
    exact ⟨rfl, rfl, rfl⟩

/-- Witness for C5 (amended): with a code delivered after 4 seconds, both 2FA
fields are cleared when the machine resumes. -/
theorem c5_request_cleared_on_resume_witness :
    (handle_login
      ⟨"about:blank", false, true, true, true, some 4, "654321", true⟩).waiting_for_2fa
        = false
  ∧ (handle_login
      ⟨"about:blank", false, true, true, true, some 4, "654321", true⟩).two_fa_code
        = none := by
  exact (c5_request_cleared_on_resume
    ⟨"about:blank", false, true, true, true, some 4, "654321", true⟩
    rfl rfl rfl rfl).1 4 rfl (by omega)

/-- Claim C9: when the page URL after the initial navigation already contains
the dashboard route, `handle_login` returns success at once, with a trace
holding only the navigation and the already-logged-in report — in particular
it never visits the email or password steps. -/
theorem c9_session_short_circuit (env : LoginEnv)
    (h : strContains env.urlAfterGoto "plan-dashboard" = true) :
    handle_login env
        = ⟨true, [LoginStep.gotoBase, LoginStep.alreadyLoggedIn], false, none⟩
  ∧ LoginStep.enterEmail ∉ (handle_login env).trace
  ∧ LoginStep.enterPassword ∉ (handle_login env).trace := by
  have he : handle_login env
      = ⟨true, [LoginStep.gotoBase, LoginStep.alreadyLoggedIn], false, none⟩ := by
    simp [handle_login, h]
  refine ⟨he, ?_, ?_⟩ <;> rw [he] <;> simp

/-- Witness for C9: a restored session landing on the dashboard route logs in
without visiting the credentials steps. -/
theorem c9_session_short_circuit_witness :
    handle_login ⟨"https://site.example/#/plan-dashboard", false, false, false,
        false, none, "", false⟩
      = ⟨true, [LoginStep.gotoBase, LoginStep.alreadyLoggedIn], false, none⟩ := by
  exact (c9_session_short_circuit
    ⟨"https://site.example/#/plan-dashboard", false, false, false, false, none,
      "", false⟩ (by decide)).1

/- ## check_dashboard (telegram_bot.py lines 244-283) -/

/-- Per-category completion snapshot, as the dict the card loop builds. -/
structure CategorySnapshot where
  name : String
  completion : Int
  items_left : Int
deriving Repr, DecidableEq

/-- The three sub-elements the card loop queries on one dashboard card
(`none` = `query_selector` found nothing, otherwise the element's text). -/
structure CardElems where
  titleText : Option String
  percentText : Option String
  itemsLeftText : Option String
deriving Repr, DecidableEq

/-- `int(items_left_text.strip('()'))` with the missing-element default
`"(0"` and the inner `try`/`except` default `0` on parse failure. -/
def itemsLeftOf (itemsLeftText : Option String) : Int :=
  match pyInt (pyStripChars ['(', ')'] (itemsLeftText.getD "(0")) with
  | some n => n
  | none => 0

/-- One iteration of the card loop in `check_dashboard`: missing title
defaults to `"Unknown"`, missing percentage element defaults to text `"0"`,
and `int(completion.strip())` failing raises inside the per-card `try`, so
the card is skipped with a warning (`none`). -/
def parseCard (card : CardElems) : Option CategorySnapshot :=
  match pyInt (card.percentText.getD "0") with
  | some completion =>
      some ⟨pyStrip (card.titleText.getD "Unknown"), completion,
        itemsLeftOf card.itemsLeftText⟩
  | none => none

/-- `check_dashboard`: the categories list accumulated over the cards, each
card parsed independently (a failing card is skipped, not fatal). -/
def check_dashboard (cards : List CardElems) : List CategorySnapshot :=
  cards.filterMap parseCard

/-- Counterexample to C6 as stated: a card whose percentage element is
missing is NOT skipped — the percentage text defaults to `"0"` and the card
is kept with `completion = 0` (the claim says such a card is skipped with a
warning). -/
theorem c6_counterexample :
    check_dashboard [⟨some "Bakery", none, some "(3)"⟩] = [⟨"Bakery", 0, 3⟩] := by
  decide

/-- Claim C6 (amended): remaining-items text `"(7)"` yields 7 and `"(0"`
yields 0 (digits inside parentheses, default 0 if absent or unparsable); a
card whose percentage ELEMENT is missing is kept with completion defaulted
to 0; a percentage TEXT that fails integer parsing causes that card alone to
be skipped with a warning, not a failure of the scan. -/
theorem c6_dashboard_parse (t i : Option String) :
    check_dashboard [⟨some "Bakery", some "50", some "(7)"⟩]
        = [⟨"Bakery", 50, 7⟩]
  ∧ check_dashboard [⟨some "Bakery", some "50", some "(0"⟩]
        = [⟨"Bakery", 50, 0⟩]
  ∧ parseCard ⟨t, none, i⟩
        = some ⟨pyStrip (t.getD "Unknown"), 0, itemsLeftOf i⟩
  ∧ check_dashboard [⟨some "Bakery", some "n/a", some "(7)"⟩] = []
  ∧ check_dashboard [⟨some "Bakery", some "n/a", some "(7)"⟩,
        ⟨some "Deli", some "80", some "(2)"⟩]
        = [⟨"Deli", 80, 2⟩] := by
  refine ⟨by decide, by decide, rfl, by decide, by decide⟩

/- ## process_production_page (telegram_bot.py lines 313-357) -/

/-- One task row as the row loop sees it: a header marker (`th`), the
checkbox cell, the two icon selectors, and whether some per-row operation
raises (stale element, detached node — caught and treated as skip). -/
structure TaskRow where
  hasHeaderCell : Bool
  hasCheckboxCell : Bool
  hasUncheckedIcon : Bool
  hasCheckedIcon : Bool
  rowRaises : Bool
deriving Repr, DecidableEq

/-- One iteration of the row loop: the pair is the row's contribution to
`(items_checked, items_total)`. A raising row is `continue`d before any
increment; a header row or a row without a checkbox cell is skipped; an
unchecked icon is clicked and both counters incremented; otherwise a checked
icon increments the total only. -/
def processRow (r : TaskRow) : Nat × Nat :=
  if r.rowRaises then (0, 0)
  else if r.hasHeaderCell then (0, 0)
  else if !r.hasCheckboxCell then (0, 0)
  else if r.hasUncheckedIcon then (1, 1)
  else if r.hasCheckedIcon then (0, 1)
  else (0, 0)

/-- The accumulator step of the row loop. -/
def walkStep (acc : Nat × Nat) (r : TaskRow) : Nat × Nat :=
  (acc.1 + (processRow r).1, acc.2 + (processRow r).2)

/-- `process_production_page`: the final `(items_checked, items_total)` over
all rows, starting from `(0, 0)`. -/
def process_production_page (rows : List TaskRow) : Nat × Nat :=
  rows.foldl walkStep (0, 0)

theorem foldl_walkStep_shift (rows : List TaskRow) :
    ∀ a b, rows.foldl walkStep (a, b)
      = (a + (rows.foldl walkStep (0, 0)).1,
         b + (rows.foldl walkStep (0, 0)).2) := by
  induction rows with
  | nil => intro a b; simp
  | cons r rest ih =>
      intro a b
      simp only [List.foldl_cons, walkStep]
      rw [ih (a + (processRow r).1) (b + (processRow r).2),
        ih (0 + (processRow r).1) (0 + (processRow r).2)]
      simp only [Prod.mk.injEq]
      omega

/-- The row loop is a sum of independent per-row contributions: no row
aborts the category. -/
theorem ppp_cons (r : TaskRow) (rows : List TaskRow) :
    process_production_page (r :: rows)
      = ((processRow r).1 + (process_production_page rows).1,
         (processRow r).2 + (process_production_page rows).2) := by
  unfold process_production_page
  simp only [List.foldl_cons, walkStep]
  rw [foldl_walkStep_shift rows (0 + (processRow r).1) (0 + (processRow r).2)]
  simp only [Prod.mk.injEq]
  omega

/-- Claim C8: row classification — a row with neither icon changes neither
counter; an unchecked icon is clicked and increments both counters exactly
once; a checked-only row increments the total only; header rows and raising
rows contribute nothing; and each row's contribution is independent, so a
skipped or raising row never aborts the rest of the category. -/
theorem c8_row_classification (r : TaskRow) (rows : List TaskRow) :
    (r.rowRaises = false → r.hasHeaderCell = false → r.hasCheckboxCell = true →
        (r.hasUncheckedIcon = true → processRow r = (1, 1))
      ∧ (r.hasUncheckedIcon = false → r.hasCheckedIcon = true →
          processRow r = (0, 1))
      ∧ (r.hasUncheckedIcon = false → r.hasCheckedIcon = false →
          processRow r = (0, 0)))
  ∧ (r.rowRaises = true → processRow r = (0, 0))
  ∧ (r.rowRaises = false → r.hasHeaderCell = true → processRow r = (0, 0))
  ∧ process_production_page (r :: rows)
      = ((processRow r).1 + (process_production_page rows).1,
         (processRow r).2 + (process_production_page rows).2) := by
  refine ⟨?_, ?_, ?_, ppp_cons r rows⟩
  · intro hr hh hc
    refine ⟨?_, ?_, ?_⟩
    · intro hu; simp [processRow, hr, hh, hc, hu]
    · intro hu hk; simp [processRow, hr, hh, hc, hu, hk]
    · intro hu hk; simp [processRow, hr, hh, hc, hu, hk]
  · intro hr; simp [processRow, hr]
  · intro hr hh; simp [processRow, hr, hh]

/- ## run_full_check (telegram_bot.py lines 359-398) and cleanup (400-413) -/

/-- Outcome injected at a stage boundary: the stage returns a value or
raises. -/
inductive StageOutcome (α : Type) where
  | ok (a : α)
  | raises

/-- The externally visible events of one Run. -/
inductive RunEvent where
  | startBrowser
  | loginStage
  | dashboardStage
  | walkCategory (name : String)
  | saveSession
  | closePage
  | closeContext
  | closeBrowser
  | stopDriver
deriving Repr, DecidableEq

/-- `ProductionMonitor.cleanup`: save the session, then close page, context
and browser and stop the driver — the whole body in a `try` whose `except`
only logs, so `cleanup` itself never raises. Faults are injected at the
Run's stage boundaries, not inside cleanup. -/
def cleanupEvents : List RunEvent :=
  [RunEvent.saveSession, RunEvent.closePage, RunEvent.closeContext,
   RunEvent.closeBrowser, RunEvent.stopDriver]

/-- Fault-injection environment of one Run: what each stage returns or
whether it raises, and which `process_production_page` calls raise. -/
structure RunEnv where
  startOutcome : StageOutcome Unit
  loginOutcome : StageOutcome Bool
  dashboardOutcome : StageOutcome (List CategorySnapshot)
  processRaises : Nat → Bool

/-- What one Run leaves behind: its event trace, whether an exception
escaped the Run boundary, and the categories passed to the walker. -/
structure RunResult where
  events : List RunEvent
  escaped : Bool
  walked : List CategorySnapshot

/-- `category['completion'] < 100 and category['items_left'] > 0`
(line 385). -/
def shouldProcess (c : CategorySnapshot) : Bool :=
  decide (c.completion < 100) && decide (0 < c.items_left)

/-- The category loop of `run_full_check`: returns the categories passed to
`process_production_page` (in order) and whether an injected per-call fault
aborted the loop ( `f k` says whether the k-th process call raises). -/
def walkLoop (f : Nat → Bool) : List CategorySnapshot → Nat →
    List CategorySnapshot × Bool
  | [], _ => ([], false)
  | c :: rest, k =>
      if shouldProcess c then
        if f k then ([c], true)
        else
          let r := walkLoop f rest (k + 1)
          (c :: r.1, r.2)
      else
        walkLoop f rest k

/-- `run_full_check`: initialize, login (abort on failure), scan the
dashboard (abort when empty), walk the incomplete categories; `cleanup` is
called on every return path, and the final `except Exception` catches
anything a stage raised, reports it and still calls `cleanup`, so nothing
escapes the Run boundary. -/
def run_full_check (env : RunEnv) : RunResult :=
  match env.startOutcome with
  | .raises => ⟨RunEvent.startBrowser :: cleanupEvents, false, []⟩
  | .ok _ =>
      match env.loginOutcome with
      | .raises =>
          ⟨[RunEvent.startBrowser, RunEvent.loginStage] ++ cleanupEvents,
            false, []⟩
      | .ok false =>
          ⟨[RunEvent.startBrowser, RunEvent.loginStage] ++ cleanupEvents,
            false, []⟩
      | .ok true =>
          match env.dashboardOutcome with
          | .raises =>
              ⟨[RunEvent.startBrowser, RunEvent.loginStage,
                RunEvent.dashboardStage] ++ cleanupEvents, false, []⟩
          | .ok cats =>
              if cats.isEmpty then
                ⟨[RunEvent.startBrowser, RunEvent.loginStage,
                  RunEvent.dashboardStage] ++ cleanupEvents, false, []⟩
              else
                let w := walkLoop env.processRaises cats 0
                ⟨[RunEvent.startBrowser, RunEvent.loginStage,
                    RunEvent.dashboardStage]
                  ++ w.1.map (fun c => RunEvent.walkCategory c.name)
                  ++ cleanupEvents, false, w.1⟩

theorem count_walk_map (l : List CategorySnapshot) (e : RunEvent)
    (h : ∀ s, e ≠ RunEvent.walkCategory s) :
    (l.map (fun c => RunEvent.walkCategory c.name)).count e = 0 := by
  rw [List.count_eq_zero]
  intro hmem
  rcases List.mem_map.mp hmem with ⟨c, _, hc⟩
  exact h c.name hc.symm

/-- Claim C1: for every Run — whatever each stage returns or raises — the
cleanup steps (session save, closing page, context, browser, stopping the
driver) appear exactly once in the Run's event trace, and no exception
escapes the Run boundary. -/
theorem c1_cleanup_exactly_once (env : RunEnv) :
    ((run_full_check env).events.count RunEvent.saveSession = 1
      ∧ (run_full_check env).events.count RunEvent.closePage = 1
      ∧ (run_full_check env).events.count RunEvent.closeContext = 1
      ∧ (run_full_check env).events.count RunEvent.closeBrowser = 1
      ∧ (run_full_check env).events.count RunEvent.stopDriver = 1)
  ∧ (run_full_check env).escaped = false := by
  obtain ⟨s, l, d, f⟩ := env
  cases s with
  | raises => exact ⟨⟨rfl, rfl, rfl, rfl, rfl⟩, rfl⟩
  | ok u =>
      cases l with
      | raises => exact ⟨⟨rfl, rfl, rfl, rfl, rfl⟩, rfl⟩
      | ok b =>
          cases b with
          | false => exact ⟨⟨rfl, rfl, rfl, rfl, rfl⟩, rfl⟩
          | true =>
              cases d with
              | raises => exact ⟨⟨rfl, rfl, rfl, rfl, rfl⟩, rfl⟩
              | ok cats =>
                  by_cases hc : cats.isEmpty = true
                  · have h1 : run_full_check ⟨.ok u, .ok true, .ok cats, f⟩
                        = ⟨[RunEvent.startBrowser, RunEvent.loginStage,
                            RunEvent.dashboardStage] ++ cleanupEvents,
                          false, []⟩ := by
                      simp [run_full_check, hc]
                    rw [h1]
                    exact ⟨⟨rfl, rfl, rfl, rfl, rfl⟩, rfl⟩
                  · have h1 : run_full_check ⟨.ok u, .ok true, .ok cats, f⟩
                        = ⟨[RunEvent.startBrowser, RunEvent.loginStage,
                            RunEvent.dashboardStage]
                          ++ (walkLoop f cats 0).1.map
                              (fun c => RunEvent.walkCategory c.name)
                          ++ cleanupEvents, false, (walkLoop f cats 0).1⟩ := by
                      simp [run_full_check, hc]
                    rw [h1]
                    refine ⟨⟨?_, ?_, ?_, ?_, ?_⟩, rfl⟩ <;>
                    · rw [List.count_append, List.count_append,
                        count_walk_map _ _ (by intro s; simp)]
                      decide

theorem walkLoop_nofault (cats : List CategorySnapshot) :
    ∀ k, (walkLoop (fun _ => false) cats k).1 = cats.filter shouldProcess := by
  induction cats with
  | nil => intro k; rfl
  | cons c rest ih =>
      intro k
      by_cases h : shouldProcess c = true
      · simp [walkLoop, h, List.filter_cons, ih (k + 1)]
      · simp [walkLoop, h, List.filter_cons, ih k]

theorem walkLoop_mem (f : Nat → Bool) :
    ∀ (cats : List CategorySnapshot) k c, c ∈ (walkLoop f cats k).1 →
      shouldProcess c = true := by
  intro cats
  induction cats with
  | nil => intro k c h; simp [walkLoop] at h
  | cons a rest ih =>
      intro k c h
      by_cases ha : shouldProcess a = true
      · by_cases hf : f k = true
        · simp [walkLoop, ha, hf] at h
          rw [h]; exact ha
        · simp [walkLoop, ha, hf] at h
          rcases h with h | h
          · rw [h]; exact ha
          · exact ih (k + 1) c h
      · simp [walkLoop, ha] at h
        exact ih k c h

theorem run_full_check_walked_mem (env : RunEnv) (c : CategorySnapshot)
    (h : c ∈ (run_full_check env).walked) : shouldProcess c = true := by
  obtain ⟨s, l, d, f⟩ := env
  cases s with
  | raises => simp [run_full_check] at h
  | ok u =>
      cases l with
      | raises => simp [run_full_check] at h
      | ok b =>
          cases b with
          | false => simp [run_full_check] at h
          | true =>
              cases d with
              | raises => simp [run_full_check] at h
              | ok cats =>
                  by_cases hc : cats.isEmpty = true
                  · simp [run_full_check, hc] at h
                  · simp [run_full_check, hc] at h
                    exact walkLoop_mem f cats 0 c h

/-- Claim C7: for every dashboard snapshot, the categories passed to the
Task Completion Walker are exactly those with `completion < 100` and
`items_left > 0`, in order; across all fault injections, a category at 100%
or with 0 items remaining is never visited. -/
theorem c7_category_selection (cats : List CategorySnapshot) :
    (run_full_check ⟨.ok (), .ok true, .ok cats, fun _ => false⟩).walked
        = cats.filter shouldProcess
  ∧ (∀ c, c ∈ cats.filter shouldProcess ↔
        (c ∈ cats ∧ c.completion < 100 ∧ 0 < c.items_left))
  ∧ (∀ env : RunEnv, ∀ c, c ∈ (run_full_check env).walked →
        c.completion < 100 ∧ 0 < c.items_left) := by
  refine ⟨?_, ?_, ?_⟩
  · by_cases hc : cats.isEmpty = true
    · have : cats = [] := List.isEmpty_iff.mp hc
      subst this
      rfl
    · simp [run_full_check, hc]
      exact walkLoop_nofault cats 0
  · intro c
    simp [List.mem_filter, shouldProcess, and_assoc]
  · intro env c h
    have hs := run_full_check_walked_mem env c h
    simp [shouldProcess] at hs
    exact hs

/- ## run_command (telegram_bot.py lines 435-457) -/

/-- From `run_command`: after the guard passes at trigger time `t0`, the
`active_monitor` slot is assigned, `run_full_check` is spawned as a
background task, the handler sleeps a fixed 2 seconds, and then assigns
`active_monitor = None` — so the slot is occupied exactly during
`[t0, t0 + 2)`, independent of how long the background Run takes. -/
def slotOccupiedAt (t0 t : Nat) : Bool :=
  decide (t0 ≤ t) && decide (t < t0 + 2)

/-- The background Run spawned at `t0` with duration `dur` is still
executing at `t`. -/
def runActiveAt (t0 dur t : Nat) : Bool :=
  decide (t0 ≤ t) && decide (t < t0 + dur)

/-- `run_command`'s guard for a second authorized `/run` at time `t`: it is
rejected ("A check is already running!") iff `active_monitor` is non-None,
i.e. iff the slot is still occupied. -/
def secondTriggerRejected (t0 t : Nat) : Bool :=
  slotOccupiedAt t0 t

/-- Evaluation of the C2 failing input: a Run started at t=0 that takes 10
seconds is still active at t=3, yet a second `/run` at t=3 is NOT rejected,
because `run_command` clears the `active_monitor` slot after its fixed
2-second sleep rather than when the Run completes (its own comment says
"Reset active monitor after completion"). The slot is also occupied during
the first 2 seconds, when a trigger IS rejected. -/
theorem c2_slot_cleared_early :
    runActiveAt 0 10 3 = true
  ∧ secondTriggerRejected 0 3 = false
  ∧ secondTriggerRejected 0 1 = true := by
  decide
